import Mathlib

/-!
Verification of the Safety & Risk Assessment Agent
(`palate_ai_ml_project/agents/safety_agent.py`).

The agent's pure decision logic is embedded shallowly: pandas `NaN` cells
become `Option.none`, the fitted scikit-learn encoders become explicit class
lists carried in the agent state, and the trained XGBoost classifier — an
opaque learned function external to the source logic — is abstracted as an
oracle parameter that may either return a `(predicted class, P(unsafe))`
pair or raise.  Exceptions are modelled with `Except`.
-/

namespace PalateSafety

/-- A user profile record; `none` models a pandas NaN cell. -/
structure UserProfile where
  allergies : Option String
  health_conditions : Option String
  budget_range_myr : String
  deriving Repr, DecidableEq

/-- A menu item record; `none` models a pandas NaN cell. -/
structure MenuItem where
  restaurant_id : String
  allergens : Option String
  price_myr : Int
  ingredients_clean : String
  safety_status : String
  deriving Repr, DecidableEq

/-- A restaurant record. -/
structure Restaurant where
  restaurant_id : String
  cuisine_type : String
  deriving Repr, DecidableEq

/-- Python `str.strip()`: drops leading and trailing whitespace.  (Defined
structurally over the character list so that concrete inputs evaluate.) -/
def pyStrip (s : String) : String :=
  String.mk (((s.data.dropWhile Char.isWhitespace).reverse.dropWhile
    Char.isWhitespace).reverse)

/-- The worker for `str.split(sep)` with a one-character separator. -/
def splitCharAux (sep : Char) : List Char → List Char → List (List Char)
  | [], acc => [acc.reverse]
  | c :: rest, acc =>
    if c = sep then acc.reverse :: splitCharAux sep rest []
    else splitCharAux sep rest (c :: acc)

/-- Python `str.split(sep)` for a one-character separator. -/
def pySplitChar (sep : Char) (s : String) : List String :=
  (splitCharAux sep s.data []).map String.mk

/-- Whether `needle` is a prefix of `hay` (over character lists). -/
def listIsPrefix : List Char → List Char → Bool
  | [], _ => true
  | _ :: _, [] => false
  | a :: as, b :: bs => a = b && listIsPrefix as bs

/-- Whether `needle` occurs inside `hay` (over character lists). -/
def listSubstr (needle : List Char) : List Char → Bool
  | [] => needle.isEmpty
  | c :: t => listIsPrefix needle (c :: t) || listSubstr needle t

/-- Python's substring containment `needle in hay`. -/
def pySubstr (hay needle : String) : Bool :=
  listSubstr needle.data hay.data

/-- Python `str.lower()`. -/
def pyLower (s : String) : String :=
  String.mk (s.data.map Char.toLower)

/-- Python `str.join` over a list of strings. -/
def pyJoin (sep : String) (l : List String) : String :=
  String.mk (List.intercalate sep.data (l.map String.data))

/-- `SafetyAgent._safe_split`: splits a tag string on the underscore,
mapping NaN, whitespace-only strings and the sentinel "none" to the
empty list. -/
def safe_split (x : Option String) : List String :=
  match x with
  | none => []
  | some s => if pyStrip s = "" then [] else if s = "none" then [] else pySplitChar '_' s

/-- The intersection `set(a).intersection(set(b))` as a deduplicated list. -/
def setIntersect (a b : List String) : List String :=
  (a.filter (fun x => b.contains x)).dedup

/-- The training feature `missing_allergen_info`: NaN, the exactly empty
string, or the sentinel "none". -/
def missing_allergen_feature (a : Option String) : Bool :=
  match a with
  | none => true
  | some s => s = "" || s = "none"

/-- The rule-layer missing-allergen test used in `check_safety`
(`pd.isna(allergens) or allergens.strip() == ''`); unlike the training
feature, it does not cover the sentinel "none". -/
def missing_allergen_rule (a : Option String) : Bool :=
  match a with
  | none => true
  | some s => pyStrip s = ""

/-- The verdict dictionary returned by `check_safety`. -/
structure Verdict where
  safe : Bool
  reason : String
  risk_level : String
  model_confidence : Option Rat
  deriving Repr, DecidableEq

/-- The mutable state of a `SafetyAgent` instance: the two flags plus the
classes captured by the fitted encoders and the trained feature schema
(`model._Booster.feature_names`). -/
structure AgentState where
  trained : Bool
  fallback_active : Bool
  user_allergies_classes : List String
  menu_allergens_classes : List String
  health_conditions_classes : List String
  cuisine_classes : List String
  feature_names : List String
  deriving Repr, DecidableEq

/-- `MultiLabelBinarizer.transform` on one row: one 0/1 indicator column per
fitted class (unseen tags are ignored, matching scikit-learn's warning-only
behaviour). -/
def mlbTransform (classes : List String) (tags : List String) : List (String × Int) :=
  classes.map (fun c => (c, if tags.contains c then (1 : Int) else 0))

/-- `LabelEncoder.transform` on one value: its index among the fitted
classes; raises `ValueError` on an unseen label. -/
def labelEncoderTransform (classes : List String) (v : String) : Except String Int :=
  match classes.indexOf? v with
  | some i => .ok (i : Int)
  | none => .error ("y contains previously unseen label " ++ v)

/-- Reads a nonempty all-digit character list as a natural number. -/
def digitsToNat : List Char → Option Nat
  | [] => none
  | l => l.foldl (fun acc c =>
      acc.bind (fun n => if c.isDigit then some (n * 10 + (c.toNat - 48)) else none))
      (some 0)

/-- Python `int(s)`: strips whitespace, allows a sign, and raises
`ValueError` on any other text. -/
def pyInt (s : String) : Except String Int :=
  match (pyStrip s).data with
  | '-' :: rest =>
    match digitsToNat rest with
    | some n => .ok (-(n : Int))
    | none => .error ("invalid literal for int: " ++ s)
  | '+' :: rest =>
    match digitsToNat rest with
    | some n => .ok (n : Int)
    | none => .error ("invalid literal for int: " ++ s)
  | l =>
    match digitsToNat l with
    | some n => .ok (n : Int)
    | none => .error ("invalid literal for int: " ++ s)

/-- `budget_range_myr.str.split('-')` followed by `int(parts[0])` and
`int(parts[1])` (an absent second part raises `IndexError`). -/
def parseBudget (s : String) : Except String (Int × Int) :=
  match pySplitChar '-' s with
  | p0 :: p1 :: _ => do
      let lo ← pyInt p0
      let hi ← pyInt p1
      .ok (lo, hi)
  | [p0] => do
      let _ ← pyInt p0
      .error "list index out of range"
  | [] => .error "list index out of range"

/-- The column-completion loop over the trained feature names: append a zero
column for each expected column absent from the single-input expansion. -/
def addMissing (schema : List String) (X : List (String × Int)) : List (String × Int) :=
  schema.foldl (fun acc c => if (acc.lookup c).isSome then acc else acc ++ [(c, 0)]) X

/-- `X_single.reindex(columns=expected_feature_names, fill_value=0)`. -/
def reindexTo (schema : List String) (X : List (String × Int)) : List (String × Int) :=
  schema.map (fun c => (c, (X.lookup c).getD 0))

/-- `SafetyAgent._preprocess_single_input`: encodes one triple against the
fitted encoders and reindexes to the trained feature schema.  Returns `none`
when the agent is untrained; an encoder rejection (unseen cuisine, malformed
budget) raises. -/
def preprocess_single_input (st : AgentState) (u : UserProfile) (m : MenuItem)
    (r : Restaurant) : Except String (Option (List (String × Int))) :=
  if st.trained = false then .ok none
  else
    match labelEncoderTransform st.cuisine_classes r.cuisine_type with
    | .error e => .error e
    | .ok cu =>
      match parseBudget u.budget_range_myr with
      | .error e => .error e
      | .ok b =>
        let X := mlbTransform st.user_allergies_classes (safe_split u.allergies) ++
          mlbTransform st.menu_allergens_classes (safe_split m.allergens) ++
          mlbTransform st.health_conditions_classes (safe_split u.health_conditions) ++
          [("cuisine_encoded", cu), ("budget_min", b.1), ("budget_max", b.2),
           ("price", m.price_myr),
           ("missing_allergen_info", if missing_allergen_feature m.allergens then 1 else 0)]
        .ok (some (reindexTo st.feature_names (addMissing st.feature_names X)))

/-- The rule-only verdict sequence of `check_safety`, shared by the
untrained/fallback branch and by the in-prediction exception handler,
which differ only by the `_IN_PRED` reason suffix. -/
def fallback_rules (sfx : String) (u : UserProfile) (m : MenuItem) : Verdict :=
  if missing_allergen_rule m.allergens then
    { safe := false
      reason := "MISSING_ALLERGEN_INFO_FALLBACK" ++ sfx ++ " (Critical Safety Rule)"
      risk_level := "HIGH"
      model_confidence := none }
  else
    if (setIntersect (safe_split u.allergies) (safe_split m.allergens)).isEmpty = false then
      { safe := false
        reason := "DIRECT_ALLERGEN_MATCH_FALLBACK" ++ sfx ++ ": " ++
          pyJoin ", " (setIntersect (safe_split u.allergies) (safe_split m.allergens))
        risk_level := "CRITICAL"
        model_confidence := none }
    else if (safe_split u.health_conditions).contains "celiac_disease"
        && (safe_split m.allergens).contains "gluten" then
      { safe := false
        reason := "CELIAC_GLUTEN_MATCH_FALLBACK" ++ sfx ++ " (Critical Safety Rule)"
        risk_level := "CRITICAL"
        model_confidence := none }
    else
      { safe := true
        reason := "FALLBACK_NO_DIRECT_CONFLICT" ++ sfx
        risk_level := "LOW"
        model_confidence := none }

/-- A decimal-free rendering of a probability, standing in for Python's
`f'{p:.2f}'` inside reason strings. -/
def ratStr (q : Rat) : String :=
  toString q.num ++ "/" ++ toString q.den

/-- Exact rational subtraction by cross-multiplication (definitionally
computable, unlike the library's irreducible subtraction; `ratSub_eq` below
shows it agrees with it). -/
def ratSub (a b : Rat) : Rat :=
  mkRat (a.num * (b.den : Int) - b.num * (a.den : Int)) (a.den * b.den)

/-- The model-backed tail of `check_safety`: interprets the classifier
prediction `(predicted class, P(unsafe))` and applies the hard-rule
overrides; a prediction-time exception falls back to the rule sequence. -/
def ml_verdict (u : UserProfile) (m : MenuItem)
    (res : Except String (Nat × Rat)) : Verdict :=
  match res with
  | .error _ => fallback_rules "_IN_PRED" u m
  | .ok (prediction, prob_unsafe) =>
    if ¬ prediction = 0 ∨ prob_unsafe > mkRat 7 10 then
      if (safe_split u.allergies).contains "shellfish"
          && ((safe_split m.allergens).contains "shellfish"
              || pySubstr (pyLower m.ingredients_clean) "seafood") then
        { safe := false
          reason := "ML_Predicted_Unsafe (" ++ ratStr prob_unsafe ++ ") BUT_HARD_RULE_Shellfish_Allergy_Seafood_Conflict"
          risk_level := "CRITICAL"
          model_confidence := some prob_unsafe }
      else if (safe_split u.health_conditions).contains "celiac_disease"
          && (safe_split m.allergens).contains "gluten" then
        { safe := false
          reason := "ML_Predicted_Unsafe (" ++ ratStr prob_unsafe ++ ") BUT_HARD_RULE_Celiac_Gluten_Conflict"
          risk_level := "CRITICAL"
          model_confidence := some prob_unsafe }
      else
        { safe := false
          reason := "ML_Model_Predicted_Unsafe (Confidence: " ++ ratStr prob_unsafe ++ ")"
          risk_level :=
            if prob_unsafe > mkRat 9 10 then "CRITICAL"
            else if prob_unsafe > mkRat 7 10 then "HIGH" else "MEDIUM"
          model_confidence := some prob_unsafe }
    else
      if (safe_split u.allergies).contains "shellfish"
          && ((safe_split m.allergens).contains "shellfish"
              || pySubstr (pyLower m.ingredients_clean) "seafood") then
        { safe := false
          reason := "HARD_RULE_Shellfish_Allergy_Seafood_Conflict (Overrides ML Safe)"
          risk_level := "CRITICAL"
          model_confidence := some prob_unsafe }
      else if (safe_split u.health_conditions).contains "celiac_disease"
          && (safe_split m.allergens).contains "gluten" then
        { safe := false
          reason := "HARD_RULE_Celiac_Gluten_Conflict (Overrides ML Safe)"
          risk_level := "CRITICAL"
          model_confidence := some prob_unsafe }
      else if missing_allergen_rule m.allergens then
        { safe := false
          reason := "MISSING_ALLERGEN_INFO (Critical Safety Rule Overrides ML Safe)"
          risk_level := "HIGH"
          model_confidence := some prob_unsafe }
      else
        { safe := true
          reason := "ML_Model_Predicted_Safe (Confidence: " ++ ratStr (ratSub 1 prob_unsafe) ++ ")"
          risk_level := "LOW"
          model_confidence := some (ratSub 1 prob_unsafe) }

instance {α : Type} {β : Type} [DecidableEq α] [DecidableEq β] :
    DecidableEq (Except α β) := fun a b =>
  match a, b with
  | .ok x, .ok y =>
    if h : x = y then .isTrue (congrArg Except.ok h)
    else .isFalse (fun hc => h (Except.ok.inj hc))
  | .error x, .error y =>
    if h : x = y then .isTrue (congrArg Except.error h)
    else .isFalse (fun hc => h (Except.error.inj hc))
  | .ok _, .error _ => .isFalse (fun hc => Except.noConfusion hc)
  | .error _, .ok _ => .isFalse (fun hc => Except.noConfusion hc)

/-- The fitted XGBoost classifier abstracted as an oracle: on the encoded
feature vector it either raises or yields `(predicted class, P(unsafe))`. -/
abbrev ModelOracle := List (String × Int) → Except String (Nat × Rat)

/-- `SafetyAgent.check_safety`: the rule-only branch when untrained or in
fallback, otherwise single-input encoding (whose exceptions propagate)
followed by the classifier and the hard-rule overrides. -/
def check_safety (st : AgentState) (oracle : ModelOracle) (u : UserProfile)
    (m : MenuItem) (r : Restaurant) : Except String Verdict :=
  if st.trained = false ∨ st.fallback_active = true then
    .ok (fallback_rules "" u m)
  else
    match preprocess_single_input st u m r with
    | .error e => .error e
    | .ok none =>
        .ok { safe := false, reason := "PREPROCESSING_ERROR"
              risk_level := "UNKNOWN", model_confidence := none }
    | .ok (some X) => .ok (ml_verdict u m (oracle X))

/-- Insertion of a string into a sorted list (scikit-learn encoders store
their classes sorted). -/
def insertSorted (a : String) : List String → List String
  | [] => [a]
  | b :: t => if a ≤ b then a :: b :: t else b :: insertSorted a t

/-- Sorts a list of strings (the order `np.unique` gives encoder classes). -/
def sortStrings (l : List String) : List String :=
  l.foldr insertSorted []

/-- `MultiLabelBinarizer.fit`: the sorted set of all tags seen in training. -/
def mlbFit (rows : List (List String)) : List String :=
  sortStrings (rows.foldl (fun acc l => acc ++ l) []).dedup

/-- The weak-supervision labeling function (`is_unsafe` in
`SafetyAgent._preprocess_data`) applied to one cross-joined row. -/
def unsafe_label (u : UserProfile) (m : MenuItem) : Nat :=
  if (setIntersect (safe_split u.allergies) (safe_split m.allergens)).isEmpty = false then 1
  else if (safe_split u.health_conditions).contains "celiac_disease"
      && (safe_split m.allergens).contains "gluten" then 1
  else if m.safety_status = "POTENTIAL_RISK" then 1
  else 0

/-- One row of the training feature matrix, built from the classes the
encoders captured on the training population. -/
def buildTrainRow (uaC maC hcC cuC : List String) (u : UserProfile) (m : MenuItem)
    (cuisine : String) (budget : Int × Int) : List (String × Int) :=
  mlbTransform uaC (safe_split u.allergies) ++
  mlbTransform maC (safe_split m.allergens) ++
  mlbTransform hcC (safe_split u.health_conditions) ++
  [("cuisine_encoded", (((cuC.indexOf? cuisine).getD 0 : Nat) : Int)),
   ("budget_min", budget.1), ("budget_max", budget.2), ("price", m.price_myr),
   ("missing_allergen_info", if missing_allergen_feature m.allergens then 1 else 0)]

/-- The output of `SafetyAgent._preprocess_data`: the feature matrix, the
label column, and the classes captured by the four fitted encoders. -/
structure PreprocessOut where
  X : List (List (String × Int))
  y : List Nat
  user_allergies_classes : List String
  menu_allergens_classes : List String
  health_conditions_classes : List String
  cuisine_classes : List String
  deriving Repr, DecidableEq

/-- `SafetyAgent._preprocess_data`: cross-joins every user with every menu
item, left-merges the restaurant cuisine, labels each pair with `unsafe_label`
and builds the feature matrix while fitting the encoders.  Conditions that
raise in the source — a row whose cuisine is left unmatched by the merge
(the label encoder cannot sort NaN against strings) or a malformed budget
string — are errors. -/
def preprocess_data (users : List UserProfile) (menus : List MenuItem)
    (restaurants : List Restaurant) : Except String PreprocessOut := do
  let crossed := users.flatMap (fun u => menus.map (fun m => (u, m)))
  let cuisines ← crossed.mapM (fun p =>
    match restaurants.find? (fun r => r.restaurant_id = p.2.restaurant_id) with
    | some r => Except.ok r.cuisine_type
    | none => Except.error "cuisine_type missing after left merge")
  let budgets ← crossed.mapM (fun p => parseBudget p.1.budget_range_myr)
  let ua_classes := mlbFit (crossed.map (fun p => safe_split p.1.allergies))
  let ma_classes := mlbFit (crossed.map (fun p => safe_split p.2.allergens))
  let hc_classes := mlbFit (crossed.map (fun p => safe_split p.1.health_conditions))
  let cu_classes := sortStrings cuisines.dedup
  let X := (crossed.zip (cuisines.zip budgets)).map (fun q =>
    buildTrainRow ua_classes ma_classes hc_classes cu_classes q.1.1 q.1.2 q.2.1 q.2.2)
  let y := crossed.map (fun p => unsafe_label p.1 p.2)
  .ok { X := X, y := y
        user_allergies_classes := ua_classes
        menu_allergens_classes := ma_classes
        health_conditions_classes := hc_classes
        cuisine_classes := cu_classes }

/-- The ordered feature-column schema of the training matrix, which the
fitted booster records as its feature names. -/
def featureNames (uaC maC hcC : List String) : List String :=
  uaC ++ maC ++ hcC ++
    ["cuisine_encoded", "budget_min", "budget_max", "price", "missing_allergen_info"]

/-- `train_test_split(X, y, test_size=0.2, stratify=y)`: the stratified
splitter raises when some label class has fewer than two members, or when
either side of the 80/20 split is smaller than the number of classes. -/
def train_test_split_check (y : List Nat) : Except String Unit :=
  let classes := y.dedup
  let n := y.length
  let n_test := (n + 4) / 5
  let n_train := n - n_test
  if classes.any (fun c => y.count c < 2) then
    .error "The least populated class in y has only 1 member, which is too few"
  else if n_train < classes.length then
    .error "The train_size should be greater or equal to the number of classes"
  else if n_test < classes.length then
    .error "The test_size should be greater or equal to the number of classes"
  else .ok ()

/-- The `model.fit` call abstracted: whether XGBoost raises on this data. -/
abbrev FitOracle := List (List (String × Int)) → List Nat → Except String Unit

/-- `SafetyAgent.train`: preprocessing errors, degenerate data and fit
exceptions all degrade to the fallback state; an exception raised by the
stratified train/test split is outside every `try` block and propagates. -/
def train (st0 : AgentState) (fit : FitOracle) (users : List UserProfile)
    (menus : List MenuItem) (restaurants : List Restaurant) :
    Except String AgentState :=
  match preprocess_data users menus restaurants with
  | .error _ => .ok { st0 with fallback_active := true, trained := false }
  | .ok pre =>
    if pre.X.isEmpty = true ∨ pre.y.isEmpty = true ∨ pre.y.dedup.length < 2 then
      .ok { st0 with fallback_active := true, trained := false }
    else
      match train_test_split_check pre.y with
      | .error e => .error e
      | .ok _ =>
        match fit pre.X pre.y with
        | .error _ => .ok { st0 with fallback_active := true, trained := false }
        | .ok _ =>
          .ok { trained := true
                fallback_active := false
                user_allergies_classes := pre.user_allergies_classes
                menu_allergens_classes := pre.menu_allergens_classes
                health_conditions_classes := pre.health_conditions_classes
                cuisine_classes := pre.cuisine_classes
                feature_names := featureNames pre.user_allergies_classes
                  pre.menu_allergens_classes pre.health_conditions_classes }

/-! ## Concrete fixtures used to instantiate hypotheses -/

/-- A freshly constructed agent (`SafetyAgent.__init__`). -/
def stInit : AgentState :=
  { trained := false, fallback_active := false
    user_allergies_classes := [], menu_allergens_classes := []
    health_conditions_classes := [], cuisine_classes := [], feature_names := [] }

/-- A fit call that succeeds. -/
def fitOk : FitOracle := fun _ _ => .ok ()

/-- A classifier that predicts safe with probability of unsafety 0. -/
def oracleSafe : ModelOracle := fun _ => .ok (0, 0)

def uNoAllergy : UserProfile :=
  { allergies := some "", health_conditions := some "", budget_range_myr := "10-50" }

def rThai : Restaurant := { restaurant_id := "r1", cuisine_type := "thai" }

def mDairySafe : MenuItem :=
  { restaurant_id := "r1", allergens := some "dairy", price_myr := 10
    ingredients_clean := "milk", safety_status := "VERIFIED" }

def mDairyRisk : MenuItem :=
  { mDairySafe with safety_status := "POTENTIAL_RISK" }

/-- Ten training items, five labeled unsafe and five safe: enough for the
stratified split to go through. -/
def menusBalanced : List MenuItem :=
  List.replicate 5 mDairyRisk ++ List.replicate 5 mDairySafe

/-- The agent state a successful training run on the balanced fixtures
produces. -/
def stTrainedDairy : AgentState :=
  { trained := true, fallback_active := false
    user_allergies_classes := [], menu_allergens_classes := ["dairy"]
    health_conditions_classes := [], cuisine_classes := ["thai"]
    feature_names := ["dairy", "cuisine_encoded", "budget_min", "budget_max",
      "price", "missing_allergen_info"] }

/-- The encoded row for `(uNoAllergy, mDairySafe, rThai)` under
`stTrainedDairy`. -/
def xRowDairy : List (String × Int) :=
  [("dairy", 1), ("cuisine_encoded", 0), ("budget_min", 10), ("budget_max", 50),
   ("price", 10), ("missing_allergen_info", 0)]


def uPeanut : UserProfile :=
  { allergies := some "peanut", health_conditions := some "", budget_range_myr := "10-50" }

def mPeanut : MenuItem :=
  { restaurant_id := "r1", allergens := some "peanut", price_myr := 15
    ingredients_clean := "peanut sauce chicken", safety_status := "VERIFIED" }

/-- A trained agent state whose encoders saw peanut/dairy allergens and the
thai cuisine. -/
def stTrainedPeanut : AgentState :=
  { trained := true, fallback_active := false
    user_allergies_classes := ["peanut"], menu_allergens_classes := ["dairy", "peanut"]
    health_conditions_classes := [], cuisine_classes := ["thai"]
    feature_names := featureNames ["peanut"] ["dairy", "peanut"] [] }

def uShell : UserProfile :=
  { allergies := some "shellfish", health_conditions := some "", budget_range_myr := "20-80" }

def mShrimp : MenuItem :=
  { restaurant_id := "r1", allergens := some "", price_myr := 30
    ingredients_clean := "Grilled Shrimp", safety_status := "VERIFIED" }

def mSeafoodPlatter : MenuItem :=
  { restaurant_id := "r1", allergens := some "dairy", price_myr := 45
    ingredients_clean := "Seafood Platter", safety_status := "VERIFIED" }

def rFrench : Restaurant := { restaurant_id := "r1", cuisine_type := "french" }

def mNoneSentinel : MenuItem :=
  { restaurant_id := "r1", allergens := some "none", price_myr := 12
    ingredients_clean := "rice", safety_status := "VERIFIED" }

def mEmptyAllergen : MenuItem :=
  { restaurant_id := "r1", allergens := some "", price_myr := 8
    ingredients_clean := "noodles", safety_status := "VERIFIED" }

/-- The encoded row for `(uShell, mSeafoodPlatter, rThai)` under
`stTrainedPeanut`. -/
def xRowSeafood : List (String × Int) :=
  [("peanut", 0), ("dairy", 1), ("peanut", 0), ("cuisine_encoded", 0),
   ("budget_min", 20), ("budget_max", 80), ("price", 45), ("missing_allergen_info", 0)]

def mDairySafeB : MenuItem := { mDairySafe with price_myr := 12 }

/-- The preprocessing output for the single-label dataset
`([uNoAllergy], [mDairySafe, mDairySafeB], [rThai])`: both labels are 0. -/
def preSingleLabel : PreprocessOut :=
  { X := [[("dairy", 1), ("cuisine_encoded", 0), ("budget_min", 10), ("budget_max", 50),
           ("price", 10), ("missing_allergen_info", 0)],
          [("dairy", 1), ("cuisine_encoded", 0), ("budget_min", 10), ("budget_max", 50),
           ("price", 12), ("missing_allergen_info", 0)]]
    y := [0, 0]
    user_allergies_classes := []
    menu_allergens_classes := ["dairy"]
    health_conditions_classes := []
    cuisine_classes := ["thai"] }

/-! ## General lemmas about the embedded operations -/

lemma bool_ne_false (b : Bool) (h : ¬ b = false) : b = true := by
  cases b
  · exact absurd rfl h
  · rfl

lemma bool_ne_true (b : Bool) (h : ¬ b = true) : b = false := by
  cases b
  · rfl
  · exact absurd rfl h

lemma ratSub_eq (a b : Rat) : ratSub a b = a - b := by
  rw [Rat.sub_def]
  unfold ratSub mkRat
  rw [dif_neg (Nat.mul_ne_zero a.den_nz b.den_nz)]

lemma str_append_ne (a b : String) (h : a ≠ "") : a ++ b ≠ "" := by
  intro he
  apply h
  apply String.ext
  have hd := congrArg String.data he
  simp only [String.data_append] at hd
  have h1 : a.data = [] := (List.append_eq_nil.mp hd).1
  simpa using h1

lemma mem_setIntersect (t : String) (a b : List String) :
    t ∈ setIntersect a b ↔ t ∈ a ∧ t ∈ b := by
  simp [setIntersect, List.mem_dedup, List.mem_filter]

lemma setIntersect_not_isEmpty (a b : List String) :
    (setIntersect a b).isEmpty = false ↔ ∃ t, t ∈ a ∧ t ∈ b := by
  rw [List.isEmpty_eq_false_iff_exists_mem]
  constructor
  · rintro ⟨t, ht⟩
    exact ⟨t, (mem_setIntersect t a b).mp ht⟩
  · rintro ⟨t, ht⟩
    exact ⟨t, (mem_setIntersect t a b).mpr ht⟩

lemma safe_split_ne_nil_rule (a : Option String) (h : safe_split a ≠ []) :
    missing_allergen_rule a = false := by
  cases a with
  | none => simp [safe_split] at h
  | some s =>
    simp only [safe_split] at h
    simp only [missing_allergen_rule]
    split at h
    · simp at h
    · simpa using (by assumption : ¬pyStrip s = "")

lemma reindexTo_map_fst (schema : List String) (X : List (String × Int)) :
    (reindexTo schema X).map Prod.fst = schema := by
  unfold reindexTo
  induction schema with
  | nil => rfl
  | cons a t ih => simp [ih]

lemma reindexTo_length (schema : List String) (X : List (String × Int)) :
    (reindexTo schema X).length = schema.length := by
  simp [reindexTo]

/-! ## Structural lemmas about the agent's branches -/

lemma fallback_rules_confidence (sfx : String) (u : UserProfile) (m : MenuItem) :
    (fallback_rules sfx u m).model_confidence = none := by
  unfold fallback_rules
  split
  · rfl
  · split
    · rfl
    · split <;> rfl

lemma fallback_rules_risk (sfx : String) (u : UserProfile) (m : MenuItem) :
    (fallback_rules sfx u m).risk_level = "LOW" ∨ (fallback_rules sfx u m).risk_level = "MEDIUM" ∨
    (fallback_rules sfx u m).risk_level = "HIGH" ∨ (fallback_rules sfx u m).risk_level = "CRITICAL" := by
  unfold fallback_rules
  split
  · simp
  · split
    · simp
    · split <;> simp

lemma fallback_rules_reason_ne (sfx : String) (u : UserProfile) (m : MenuItem) :
    (fallback_rules sfx u m).reason ≠ "" := by
  unfold fallback_rules
  split
  · exact str_append_ne _ _ (str_append_ne _ _ (by decide))
  · split
    · exact str_append_ne _ _ (str_append_ne _ _ (str_append_ne _ _ (by decide)))
    · split
      · exact str_append_ne _ _ (str_append_ne _ _ (by decide))
      · exact str_append_ne _ _ (by decide)

lemma fallback_rules_missing (sfx : String) (u : UserProfile) (m : MenuItem)
    (h : missing_allergen_rule m.allergens = true) :
    fallback_rules sfx u m =
      { safe := false
        reason := "MISSING_ALLERGEN_INFO_FALLBACK" ++ sfx ++ " (Critical Safety Rule)"
        risk_level := "HIGH"
        model_confidence := none } := by
  unfold fallback_rules
  simp [h]

lemma ml_verdict_risk (u : UserProfile) (m : MenuItem) (res : Except String (Nat × Rat)) :
    (ml_verdict u m res).risk_level = "LOW" ∨ (ml_verdict u m res).risk_level = "MEDIUM" ∨
    (ml_verdict u m res).risk_level = "HIGH" ∨ (ml_verdict u m res).risk_level = "CRITICAL" := by
  unfold ml_verdict
  cases res with
  | error e => exact fallback_rules_risk _ u m
  | ok pr =>
    simp only
    split_ifs <;> simp

lemma ml_verdict_reason_ne (u : UserProfile) (m : MenuItem) (res : Except String (Nat × Rat)) :
    (ml_verdict u m res).reason ≠ "" := by
  unfold ml_verdict
  cases res with
  | error e => exact fallback_rules_reason_ne _ u m
  | ok pr =>
    simp only
    split_ifs <;> first
      | exact str_append_ne _ _ (str_append_ne _ _ (by decide))
      | simp

lemma preprocess_trained_ne_none (st : AgentState) (u : UserProfile) (m : MenuItem)
    (r : Restaurant) (h : st.trained = true) :
    preprocess_single_input st u m r ≠ .ok none := by
  unfold preprocess_single_input
  simp only [h]
  intro hc
  split at hc
  · simp_all
  · split at hc
    · simp at hc
    · split at hc
      · simp at hc
      · simp at hc

lemma preprocess_trained_shape (st : AgentState) (u : UserProfile) (m : MenuItem)
    (r : Restaurant) (X : List (String × Int)) (h : st.trained = true)
    (hp : preprocess_single_input st u m r = .ok (some X)) :
    X.map Prod.fst = st.feature_names ∧ X.length = st.feature_names.length := by
  unfold preprocess_single_input at hp
  simp only [h] at hp
  split at hp
  · simp_all
  · split at hp
    · simp at hp
    · split at hp
      · simp at hp
      · simp only [Except.ok.injEq, Option.some.injEq] at hp
        subst hp
        exact ⟨reindexTo_map_fst _ _, reindexTo_length _ _⟩

lemma check_safety_model_eq (st : AgentState) (oracle : ModelOracle) (u : UserProfile)
    (m : MenuItem) (r : Restaurant) (X : List (String × Int))
    (ht : st.trained = true) (hf : st.fallback_active = false)
    (hp : preprocess_single_input st u m r = .ok (some X)) :
    check_safety st oracle u m r = .ok (ml_verdict u m (oracle X)) := by
  unfold check_safety
  rw [if_neg (by simp [ht, hf]), hp]

lemma ml_verdict_missing (u : UserProfile) (m : MenuItem) (res : Except String (Nat × Rat))
    (hmiss : missing_allergen_rule m.allergens = true) :
    (ml_verdict u m res).safe = false ∧
    ((ml_verdict u m res).model_confidence = none → (ml_verdict u m res).risk_level = "HIGH") := by
  unfold ml_verdict
  cases res with
  | error e =>
    rw [fallback_rules_missing "_IN_PRED" u m hmiss]
    exact ⟨rfl, fun _ => rfl⟩
  | ok pr =>
    simp only
    split_ifs <;> simp_all

lemma ml_verdict_shellfish (u : UserProfile) (m : MenuItem) (p : Nat) (q : Rat)
    (hshell : (safe_split u.allergies).contains "shellfish" = true)
    (hsea : pySubstr (pyLower m.ingredients_clean) "seafood" = true) :
    (ml_verdict u m (.ok (p, q))).safe = false ∧
    (ml_verdict u m (.ok (p, q))).risk_level = "CRITICAL" := by
  unfold ml_verdict
  simp only
  split_ifs <;> simp_all

/-! ## Claims -/

/-- C6: the weak-supervision labeling function labels an example unsafe (1)
iff the user's allergy set intersects the item's allergen set, or the user
has the celiac condition and the item's allergens contain gluten, or the
item's externally supplied safety status is POTENTIAL_RISK; every other
example is labeled safe (0). -/
theorem C6_labeling_function (u : UserProfile) (m : MenuItem) :
    (unsafe_label u m = 1 ↔
      ((∃ t, t ∈ safe_split u.allergies ∧ t ∈ safe_split m.allergens) ∨
        ((safe_split u.health_conditions).contains "celiac_disease" = true ∧
          (safe_split m.allergens).contains "gluten" = true) ∨
        m.safety_status = "POTENTIAL_RISK")) ∧
    (unsafe_label u m = 1 ∨ unsafe_label u m = 0) := by
  unfold unsafe_label
  split_ifs with h1 h2 h3
  · exact ⟨iff_of_true rfl (Or.inl ((setIntersect_not_isEmpty _ _).mp h1)), Or.inl rfl⟩
  · refine ⟨iff_of_true rfl (Or.inr (Or.inl ?_)), Or.inl rfl⟩
    simpa using h2
  · exact ⟨iff_of_true rfl (Or.inr (Or.inr h3)), Or.inl rfl⟩
  · refine ⟨iff_of_false (by decide) ?_, Or.inr rfl⟩
    rintro (hex | ⟨hc, hg⟩ | hs)
    · exact h1 ((setIntersect_not_isEmpty _ _).mpr hex)
    · exact h2 (by rw [Bool.and_eq_true]; exact ⟨hc, hg⟩)
    · exact h3 hs

/-- C7: after a successful train, the single-input encoder reindexes its
output to the exact ordered column schema captured at training time, so the
encoded vector's columns are precisely the training feature names (and in
particular its length equals the schema's length). -/
theorem C7_schema_stability (st0 st : AgentState) (fit : FitOracle)
    (users : List UserProfile) (menus : List MenuItem) (restaurants : List Restaurant)
    (u : UserProfile) (m : MenuItem) (r : Restaurant) (X : List (String × Int))
    (_htrain : train st0 fit users menus restaurants = .ok st)
    (htr : st.trained = true)
    (hp : preprocess_single_input st u m r = .ok (some X)) :
    X.map Prod.fst = st.feature_names ∧ X.length = st.feature_names.length :=
  preprocess_trained_shape st u m r X htr hp

theorem C7_schema_stability_witness :
    train stInit fitOk [uNoAllergy] menusBalanced [rThai] = .ok stTrainedDairy ∧
    stTrainedDairy.trained = true ∧
    preprocess_single_input stTrainedDairy uNoAllergy mDairySafe rThai = .ok (some xRowDairy) ∧
    (xRowDairy.map Prod.fst = stTrainedDairy.feature_names ∧
      xRowDairy.length = stTrainedDairy.feature_names.length) :=
  ⟨by rfl, by decide, by rfl,
    C7_schema_stability stInit stTrainedDairy fitOk [uNoAllergy] menusBalanced [rThai]
      uNoAllergy mDairySafe rThai xRowDairy (by rfl) (by decide) (by rfl)⟩

/-- C8: when training data yields fewer than two distinct label values, train
leaves the agent untrained with fallback active, and every subsequent
`check_safety` call returns the rule-engine verdict, whose model confidence
is absent — for any classifier oracle. -/
theorem C8_single_label_fallback (st0 : AgentState) (fit : FitOracle)
    (users : List UserProfile) (menus : List MenuItem) (restaurants : List Restaurant)
    (pre : PreprocessOut)
    (hpre : preprocess_data users menus restaurants = .ok pre)
    (hy : pre.y.dedup.length < 2) :
    train st0 fit users menus restaurants
      = .ok { st0 with trained := false, fallback_active := true } ∧
    ∀ (oracle : ModelOracle) (u : UserProfile) (m : MenuItem) (r : Restaurant),
      check_safety { st0 with trained := false, fallback_active := true } oracle u m r
        = .ok (fallback_rules "" u m) ∧
      (fallback_rules "" u m).model_confidence = none := by
  refine ⟨?_, ?_⟩
  · unfold train
    rw [hpre]
    simp [hy]
  · intro oracle u m r
    refine ⟨?_, fallback_rules_confidence "" u m⟩
    unfold check_safety
    simp

theorem C8_single_label_fallback_witness :
    train stInit fitOk [uNoAllergy] [mDairySafe, mDairySafeB] [rThai]
      = .ok { stInit with trained := false, fallback_active := true } ∧
    check_safety { stInit with trained := false, fallback_active := true }
        oracleSafe uNoAllergy mDairySafe rThai
      = .ok (fallback_rules "" uNoAllergy mDairySafe) ∧
    (fallback_rules "" uNoAllergy mDairySafe).model_confidence = none := by
  have h := C8_single_label_fallback stInit fitOk [uNoAllergy] [mDairySafe, mDairySafeB]
    [rThai] preSingleLabel (by decide) (by decide)
  exact ⟨h.1, (h.2 oracleSafe uNoAllergy mDairySafe rThai).1,
    (h.2 oracleSafe uNoAllergy mDairySafe rThai).2⟩

/-- C9: every verdict `check_safety` returns carries a non-empty reason
whenever it is unsafe, and carries a model confidence only when the agent
was trained and not in fallback at decision time. -/
theorem C9_verdict_invariants (st : AgentState) (oracle : ModelOracle)
    (u : UserProfile) (m : MenuItem) (r : Restaurant) (v : Verdict)
    (h : check_safety st oracle u m r = .ok v) :
    (v.safe = false → v.reason ≠ "") ∧
    (v.model_confidence ≠ none → st.fallback_active = false ∧ st.trained = true) := by
  unfold check_safety at h
  split at h
  · simp only [Except.ok.injEq] at h
    subst h
    exact ⟨fun _ => fallback_rules_reason_ne "" u m,
      fun hc => absurd (fallback_rules_confidence "" u m) hc⟩
  · rename_i hg
    push_neg at hg
    have ht : st.trained = true := bool_ne_false _ hg.1
    have hfb : st.fallback_active = false := bool_ne_true _ hg.2
    split at h
    · simp at h
    · rename_i heq
      exact absurd heq (preprocess_trained_ne_none st u m r ht)
    · rename_i X heq
      simp only [Except.ok.injEq] at h
      subst h
      exact ⟨fun _ => ml_verdict_reason_ne u m (oracle X), fun _ => ⟨hfb, ht⟩⟩

theorem C9_verdict_invariants_witness :
    ((fallback_rules "" uNoAllergy mDairySafe).safe = false →
      (fallback_rules "" uNoAllergy mDairySafe).reason ≠ "") ∧
    ((fallback_rules "" uNoAllergy mDairySafe).model_confidence ≠ none →
      stInit.fallback_active = false ∧ stInit.trained = true) :=
  C9_verdict_invariants stInit oracleSafe uNoAllergy mDairySafe rThai
    (fallback_rules "" uNoAllergy mDairySafe) (by rfl)

/-- C10: every verdict `check_safety` returns has a risk level among LOW,
MEDIUM, HIGH and CRITICAL; the UNKNOWN/PREPROCESSING_ERROR branch is
unreachable because single-input preprocessing only yields `none` for an
untrained agent, and the trained branch is entered only when trained. -/
theorem C10_risk_level_domain (st : AgentState) (oracle : ModelOracle)
    (u : UserProfile) (m : MenuItem) (r : Restaurant) :
    (st.trained = true → preprocess_single_input st u m r ≠ .ok none) ∧
    (∀ v, check_safety st oracle u m r = .ok v →
      v.risk_level = "LOW" ∨ v.risk_level = "MEDIUM" ∨
      v.risk_level = "HIGH" ∨ v.risk_level = "CRITICAL") := by
  refine ⟨fun ht => preprocess_trained_ne_none st u m r ht, ?_⟩
  intro v h
  unfold check_safety at h
  split at h
  · simp only [Except.ok.injEq] at h
    subst h
    exact fallback_rules_risk "" u m
  · rename_i hg
    push_neg at hg
    have ht : st.trained = true := bool_ne_false _ hg.1
    split at h
    · simp at h
    · rename_i heq
      exact absurd heq (preprocess_trained_ne_none st u m r ht)
    · rename_i X heq
      simp only [Except.ok.injEq] at h
      subst h
      exact ml_verdict_risk u m (oracle X)

theorem C10_risk_level_domain_witness :
    (stTrainedDairy.trained = true →
      preprocess_single_input stTrainedDairy uNoAllergy mDairySafe rThai ≠ .ok none) ∧
    ((fallback_rules "" uNoAllergy mDairySafe).risk_level = "LOW" ∨
      (fallback_rules "" uNoAllergy mDairySafe).risk_level = "MEDIUM" ∨
      (fallback_rules "" uNoAllergy mDairySafe).risk_level = "HIGH" ∨
      (fallback_rules "" uNoAllergy mDairySafe).risk_level = "CRITICAL") :=
  ⟨(C10_risk_level_domain stTrainedDairy oracleSafe uNoAllergy mDairySafe rThai).1,
    (C10_risk_level_domain stInit oracleSafe uNoAllergy mDairySafe rThai).2
      (fallback_rules "" uNoAllergy mDairySafe) (by rfl)⟩


/-- C1 (amended): in FALLBACK (rule-only) state — untrained or fallback flag
set — a nonempty intersection between the user allergy set and the item
allergen set always yields an unsafe verdict with risk CRITICAL.  (In
MODEL_BACKED state the direct-allergen-match rule is not re-run as an
override, so this does not hold there; see the counterexample.) -/
theorem C1_fallback_direct_match_critical (st : AgentState) (oracle : ModelOracle)
    (u : UserProfile) (m : MenuItem) (r : Restaurant)
    (hst : st.trained = false ∨ st.fallback_active = true)
    (hint : setIntersect (safe_split u.allergies) (safe_split m.allergens) ≠ []) :
    ∃ v, check_safety st oracle u m r = .ok v ∧ v.safe = false ∧ v.risk_level = "CRITICAL" := by
  refine ⟨fallback_rules "" u m, ?_, ?_⟩
  · unfold check_safety
    rw [if_pos hst]
  · have hmal : safe_split m.allergens ≠ [] := by
      obtain ⟨t, ht⟩ := List.exists_mem_of_ne_nil _ hint
      exact List.ne_nil_of_mem ((mem_setIntersect t _ _).mp ht).2
    have hmiss := safe_split_ne_nil_rule m.allergens hmal
    have hne : (setIntersect (safe_split u.allergies) (safe_split m.allergens)).isEmpty = false := by
      rw [List.isEmpty_eq_false_iff_exists_mem]
      exact List.exists_mem_of_ne_nil _ hint
    unfold fallback_rules
    simp [hmiss, hne]

theorem C1_fallback_direct_match_critical_witness :
    ∃ v, check_safety stInit oracleSafe uPeanut mPeanut rThai = .ok v ∧
      v.safe = false ∧ v.risk_level = "CRITICAL" :=
  C1_fallback_direct_match_critical stInit oracleSafe uPeanut mPeanut rThai
    (Or.inl rfl) (by decide)

/-- C1 counterexample: a trained, non-fallback agent whose model predicts
safe returns `safe := true` even though the user's allergy set intersects
the item's allergen set — the claim's CRITICAL override does not happen in
MODEL_BACKED state. -/
theorem C1_counterexample :
    setIntersect (safe_split uPeanut.allergies) (safe_split mPeanut.allergens) ≠ [] ∧
    stTrainedPeanut.trained = true ∧ stTrainedPeanut.fallback_active = false ∧
    check_safety stTrainedPeanut oracleSafe uPeanut mPeanut rThai
      = .ok { safe := true
              reason := "ML_Model_Predicted_Safe (Confidence: 1/1)"
              risk_level := "LOW"
              model_confidence := some 1 } :=
  ⟨by decide, by decide, by decide, by decide⟩

/-- C2 (amended): whenever the rule-layer missing-allergen test fires (NaN
or whitespace-only allergen text — the sentinel "none" is not covered by
this test), every verdict `check_safety` returns is unsafe, and every such
rule-only verdict (no model confidence) carries risk HIGH. -/
theorem C2_missing_allergen_unsafe (st : AgentState) (oracle : ModelOracle)
    (u : UserProfile) (m : MenuItem) (r : Restaurant)
    (hmiss : missing_allergen_rule m.allergens = true) :
    ∀ v, check_safety st oracle u m r = .ok v →
      v.safe = false ∧ (v.model_confidence = none → v.risk_level = "HIGH") := by
  intro v h
  unfold check_safety at h
  split at h
  · simp only [Except.ok.injEq] at h
    subst h
    rw [fallback_rules_missing "" u m hmiss]
    exact ⟨rfl, fun _ => rfl⟩
  · rename_i hg
    push_neg at hg
    have ht := bool_ne_false _ hg.1
    split at h
    · simp at h
    · rename_i heq
      exact absurd heq (preprocess_trained_ne_none st u m r ht)
    · rename_i X heq
      simp only [Except.ok.injEq] at h
      subst h
      exact ml_verdict_missing u m (oracle X) hmiss

theorem C2_missing_allergen_unsafe_witness :
    (fallback_rules "" uNoAllergy mEmptyAllergen).safe = false ∧
    ((fallback_rules "" uNoAllergy mEmptyAllergen).model_confidence = none →
      (fallback_rules "" uNoAllergy mEmptyAllergen).risk_level = "HIGH") :=
  C2_missing_allergen_unsafe stInit oracleSafe uNoAllergy mEmptyAllergen rThai (by decide)
    (fallback_rules "" uNoAllergy mEmptyAllergen) (by rfl)

/-- C2 counterexample: an item whose allergens field is the sentinel "none"
— which the data model and encoder treat as unknown — is NOT treated as
missing by `check_safety`: in fallback state it comes back safe/LOW instead
of unsafe/HIGH. -/
theorem C2_counterexample :
    missing_allergen_feature mNoneSentinel.allergens = true ∧
    check_safety stInit oracleSafe uNoAllergy mNoneSentinel rThai
      = .ok { safe := true, reason := "FALLBACK_NO_DIRECT_CONFLICT"
              risk_level := "LOW", model_confidence := none } :=
  ⟨by decide, by decide⟩

/-- C3 (amended): the ingredient-text predicate of the shellfish hard rule
matches the substring "seafood" in the lowercased ingredient text (not
"shrimp"), and only in MODEL_BACKED state: for a shellfish-allergic user
and such an item, any model prediction result yields unsafe/CRITICAL even
when the direct allergen-set intersection does not fire. -/
theorem C3_shellfish_seafood_keyword (st : AgentState) (oracle : ModelOracle)
    (u : UserProfile) (m : MenuItem) (r : Restaurant) (X : List (String × Int))
    (p : Nat) (q : Rat)
    (ht : st.trained = true) (hf : st.fallback_active = false)
    (hp : preprocess_single_input st u m r = .ok (some X))
    (ho : oracle X = .ok (p, q))
    (hshell : (safe_split u.allergies).contains "shellfish" = true)
    (hsea : pySubstr (pyLower m.ingredients_clean) "seafood" = true) :
    ∃ v, check_safety st oracle u m r = .ok v ∧ v.safe = false ∧ v.risk_level = "CRITICAL" := by
  refine ⟨ml_verdict u m (oracle X), check_safety_model_eq st oracle u m r X ht hf hp, ?_⟩
  rw [ho]
  exact ml_verdict_shellfish u m p q hshell hsea

theorem C3_shellfish_seafood_keyword_witness :
    ∃ v, check_safety stTrainedPeanut oracleSafe uShell mSeafoodPlatter rThai = .ok v ∧
      v.safe = false ∧ v.risk_level = "CRITICAL" :=
  C3_shellfish_seafood_keyword stTrainedPeanut oracleSafe uShell mSeafoodPlatter rThai
    xRowSeafood 0 0 (by decide) (by decide) (by decide) (by rfl) (by decide) (by decide)

/-- C3 counterexample: user allergic to shellfish, item with empty allergen
text whose ingredients contain "shrimp" (but not "seafood"): `check_safety`
in MODEL_BACKED state returns the missing-allergen verdict with risk HIGH,
not the claimed CRITICAL shellfish-rule verdict. -/
theorem C3_counterexample :
    safe_split mShrimp.allergens = [] ∧
    pySubstr (pyLower mShrimp.ingredients_clean) "shrimp" = true ∧
    (safe_split uShell.allergies).contains "shellfish" = true ∧
    check_safety stTrainedPeanut oracleSafe uShell mShrimp rThai
      = .ok { safe := false
              reason := "MISSING_ALLERGEN_INFO (Critical Safety Rule Overrides ML Safe)"
              risk_level := "HIGH", model_confidence := some 0 } :=
  ⟨by decide, by decide, by decide, by decide⟩

/-- C4 (amended): the only way `check_safety` propagates an exception is a
single-input encoding failure in the MODEL_BACKED path (e.g. an unseen
cuisine in `LabelEncoder.transform`); rule-only paths and classifier
prediction errors never raise (predict errors degrade to the in-call
fallback rules). -/
theorem C4_exception_only_from_encoding (st : AgentState) (oracle : ModelOracle)
    (u : UserProfile) (m : MenuItem) (r : Restaurant) (e : String)
    (h : check_safety st oracle u m r = .error e) :
    st.trained = true ∧ st.fallback_active = false ∧
    preprocess_single_input st u m r = .error e := by
  unfold check_safety at h
  split at h
  · simp at h
  · rename_i hg
    push_neg at hg
    refine ⟨bool_ne_false _ hg.1, bool_ne_true _ hg.2, ?_⟩
    split at h
    · rename_i e' heq
      simp only [Except.error.injEq] at h
      subst h
      exact heq
    · simp at h
    · simp at h

theorem C4_exception_only_from_encoding_witness :
    stTrainedPeanut.trained = true ∧ stTrainedPeanut.fallback_active = false ∧
    preprocess_single_input stTrainedPeanut uPeanut mPeanut rFrench
      = .error "y contains previously unseen label french" :=
  C4_exception_only_from_encoding stTrainedPeanut oracleSafe uPeanut mPeanut rFrench
    "y contains previously unseen label french" (by decide)

/-- C4 counterexample: a restaurant with a cuisine the label encoder never
saw makes `check_safety` raise (the encoding step is outside every try
block), instead of degrading to the fallback rules. -/
theorem C4_counterexample :
    check_safety stTrainedPeanut oracleSafe uPeanut mPeanut rFrench
      = .error "y contains previously unseen label french" := by decide

/-- C5 (amended): train catches preprocessing errors, degenerate data
(empty matrix or single-valued labels) and fit exceptions, turning them all
into the fallback state; the one uncaught failure is an exception from the
stratified train/test split, which propagates to the caller. -/
theorem C5_train_uncaught_split (st0 : AgentState) (fit : FitOracle)
    (users : List UserProfile) (menus : List MenuItem) (restaurants : List Restaurant)
    (e : String)
    (h : train st0 fit users menus restaurants = .error e) :
    ∃ pre, preprocess_data users menus restaurants = .ok pre ∧
      ¬(pre.X.isEmpty = true ∨ pre.y.isEmpty = true ∨ pre.y.dedup.length < 2) ∧
      train_test_split_check pre.y = .error e := by
  unfold train at h
  split at h
  · simp at h
  · rename_i pre heq
    refine ⟨pre, heq, ?_⟩
    split at h
    · simp at h
    · rename_i hguard
      refine ⟨hguard, ?_⟩
      split at h
      · rename_i e' heq2
        simp only [Except.error.injEq] at h
        subst h
        exact heq2
      · split at h <;> simp at h

theorem C5_train_uncaught_split_witness :
    ∃ pre, preprocess_data [uNoAllergy] [mDairySafe, mDairyRisk] [rThai] = .ok pre ∧
      ¬(pre.X.isEmpty = true ∨ pre.y.isEmpty = true ∨ pre.y.dedup.length < 2) ∧
      train_test_split_check pre.y
        = .error "The least populated class in y has only 1 member, which is too few" :=
  C5_train_uncaught_split stInit fitOk [uNoAllergy] [mDairySafe, mDairyRisk] [rThai]
    "The least populated class in y has only 1 member, which is too few" (by decide)

/-- C5 counterexample: a dataset whose two labels each occur once makes the
stratified `train_test_split` raise, and `train` propagates that exception
to the caller instead of degrading to fallback. -/
theorem C5_counterexample :
    train stInit fitOk [uNoAllergy] [mDairySafe, mDairyRisk] [rThai]
      = .error "The least populated class in y has only 1 member, which is too few" := by
  decide

end PalateSafety
